import Mathlib

/-!
Shallow embedding of `pygame_cards/game_app.py` (classes `RenderThread`,
`GameApp` and its inner class `GameApp.GuiInterface`).

Conventions used throughout this development:
* JSON values loaded by `json.load` are modelled by the inductive `JValue`;
  Python `None` is `JValue.null`.
* A failing Python dictionary subscript (`KeyError` on a dict without the key,
  `TypeError` on a non-dict) is modelled by `JValue.getKey` returning `none`;
  both are uncaught lookup failures in the source.
* Side-effecting calls into pygame / the gui module / subclass hooks are
  recorded as elements of explicit action traces, in source order.
* Python object identity (the default `==` used by `list.remove`) is modelled
  by an explicit `id` field on gui elements.
-/

/-- A parsed JSON document, as returned by `json.load` in `GameApp.load_json`.
Numbers are integers here; no claim depends on fractional values. -/
inductive JValue where
  | null
  | bool (b : Bool)
  | num (n : Int)
  | str (s : String)
  | arr (elems : List JValue)
  | obj (entries : List (String × JValue))

/-- Python dictionary subscript `v[k]`.  Returns `some` value for a dict that
has the key, `none` otherwise (`KeyError` for a dict without the key,
`TypeError` for a non-dict value: both uncaught lookup failures in the code).
Parsed JSON objects have distinct keys, so first-match lookup is faithful. -/
def JValue.getKey : JValue → String → Option JValue
  | .obj entries, k => entries.lookup k
  | _, _ => none

/-- The three window fields that `GameApp.load_settings_from_json` assigns
(`self.title`, `self.background_color`, `self.size`).  The method copies the
raw JSON values with no coercion, so the fields stay `JValue`s. -/
structure WindowSettings where
  title : JValue
  background_color : JValue
  size : JValue

/-- `GameApp.load_settings_from_json`: reads
`settings_json["window"]["title"]`, `settings_json["window"]['background_color']`
and `settings_json["window"]["size"]`, in that order; any missing key aborts
with an uncaught lookup failure (`none`).  The trailing call to the abstract
hook `load_game_settings_from_json` is a `pass` body in the base class and
touches none of the window fields, so it contributes nothing here. -/
def load_settings_from_json (settings_json : JValue) : Option WindowSettings := do
  let title ← (← settings_json.getKey "window").getKey "title"
  let background_color ← (← settings_json.getKey "window").getKey "background_color"
  let size ← (← settings_json.getKey "window").getKey "size"
  pure ⟨title, background_color, size⟩

/-- How `GameApp.__init__` fails: the explicit
`raise ValueError('settings json file is not loaded', 'GameApp.__init__')`
when the loaded settings object is `None`, or an uncaught lookup failure
propagating out of `load_settings_from_json`. -/
inductive InitError where
  | valueError (msg : String) (where_ : String)
  | keyLookupError
deriving DecidableEq, Repr

/-- The pygame calls `GameApp.__init__` makes after the settings are parsed,
in source order.  `setMode` is the window creation (`pygame.display.set_mode`). -/
inductive InitAction where
  | pygameInit
  | fontInit
  | setCaption (title : JValue)
  | setMode (size : JValue)
  | fillBackground (color : JValue)

/-- `GameApp.__init__` from the point where `globals.settings_json` holds the
loaded document: the `is None` check, then `load_settings_from_json`, then the
pygame window setup.  Returns the trace of pygame actions performed together
with either the settled window fields or the error that aborted construction. -/
def gameAppInit (loaded : JValue) : List InitAction × Except InitError WindowSettings :=
  match loaded with
  | .null =>
    ([], .error (.valueError "settings json file is not loaded" "GameApp.__init__"))
  | loaded =>
    match load_settings_from_json loaded with
    | none => ([], .error .keyLookupError)
    | some ws =>
      ([.pygameInit, .fontInit, .setCaption ws.title, .setMode ws.size,
        .fillBackground ws.background_color], .ok ws)

/-- What `open(path)` + `json.load` can encounter in `GameApp.load_json`:
the file is absent (`IOError` from `open`), its text is not JSON
(`ValueError` from `json.load`), or it parses to a `JValue`
(possibly `JValue.null`, for a file containing `null`). -/
inductive FileContent where
  | absent
  | invalid (raw : String)
  | valid (v : JValue)

/-- An error escaping `GameApp.load_json` uncaught. -/
inductive LoadError where
  | ioError
  | jsonParseError
deriving DecidableEq, Repr

/-- `GameApp.load_json`: opens and parses the file, with no error handling of
its own, so `IOError` / `ValueError` propagate to the caller. -/
def load_json : FileContent → Except LoadError JValue
  | .absent => .error .ioError
  | .invalid _ => .error .jsonParseError
  | .valid v => .ok v

/-- The whole constructor path `GameApp.__init__(json_name)`: run the loader
on the file, then the `is None` check and the rest of `__init__`.  Loader
errors surface on the left, constructor-time errors on the right. -/
def gameAppConstruct (f : FileContent) :
    Except (LoadError ⊕ InitError) (List InitAction × WindowSettings) :=
  match load_json f with
  | .error e => .error (.inl e)
  | .ok v =>
    match gameAppInit v with
    | (_, .error e) => .error (.inr e)
    | (tr, .ok ws) => .ok (tr, ws)

/-- A gui element held in `GuiInterface.gui_list` (a `gui.Title` or
`gui.Button`).  `id` models Python object identity, the equality that
`list.remove` compares with; `expired?` models the optional `expired`
attribute (`none` when `hasattr(g, 'expired')` is false). -/
structure GuiElem where
  id : Nat
  expired? : Option Bool
deriving DecidableEq, Repr

/-- The test `hasattr(g, 'expired') and g.expired` guarding removal in
`GuiInterface.render`. -/
def GuiElem.isExpired (g : GuiElem) : Bool := g.expired? = some true

/-- The loop body of `GuiInterface.render`:

    for g in self.gui_list:
        if hasattr(g, 'expired') and g.expired:
            self.gui_list.remove(g)
            continue
        g.render()

CPython's list iterator keeps a bare index `i`, incremented after every
element it yields, and stops as soon as `i` is out of range of the *current*
list; `list.remove(g)` deletes the first element equal to `g` and shifts the
rest left.  `fuel` only bounds the iteration count (each step raises `i` by
one against a list that never grows, so `l.length - i` steps always suffice);
the accumulated `drawn` records the `g.render()` calls in order.  Returns the
final list and the drawn elements. -/
def renderPassAux : Nat → List GuiElem → Nat → List GuiElem → List GuiElem × List GuiElem
  | 0, l, _, drawn => (l, drawn)
  | fuel + 1, l, i, drawn =>
    match l[i]? with
    | none => (l, drawn)
    | some g =>
      if g.isExpired then
        renderPassAux fuel (l.erase g) (i + 1) drawn
      else
        renderPassAux fuel l (i + 1) (drawn ++ [g])

/-- One full run of `GuiInterface.render` over the current `gui_list`. -/
def renderPass (l : List GuiElem) : List GuiElem × List GuiElem :=
  renderPassAux l.length l 0 []

/-- The state of the inner class `GameApp.GuiInterface`: the gui block of the
settings json and the mutable element list (the drawing surface `screen` is a
pygame handle with no observable state of its own and is omitted). -/
structure GuiInterfaceState where
  gui_json : JValue
  gui_list : List GuiElem

/-- `GuiInterface.show_label`: appends a `gui.Title` built from the
`notification_label` style block.  The constructed element starts without an
`expired` attribute; `newId` stands for the fresh object identity. -/
def show_label (s : GuiInterfaceState) (newId : Nat) : GuiInterfaceState :=
  { s with gui_list := s.gui_list ++ [⟨newId, none⟩] }

/-- `GuiInterface.show_button`: appends a `gui.Button` built from the
`done_button` style block.  Same shape as `show_label` at this level. -/
def show_button (s : GuiInterfaceState) (newId : Nat) : GuiInterfaceState :=
  { s with gui_list := s.gui_list ++ [⟨newId, none⟩] }

/-- `GuiInterface.hide_button`: the body is a single `pass` statement, so the
interface state is returned untouched. -/
def hide_button (s : GuiInterfaceState) : GuiInterfaceState := s

/-- `GuiInterface.render` seen as a state transformer: replaces `gui_list`
with the survivors of the pass and reports which elements were drawn. -/
def GuiInterfaceState.render (s : GuiInterfaceState) : GuiInterfaceState × List GuiElem :=
  let (l, drawn) := renderPass s.gui_list
  ({ s with gui_list := l }, drawn)

/-- The pygame event kinds `GameApp.process_events` distinguishes; every
other `event.type` value (keyboard events, etc.) falls into `other`. -/
inductive EventType where
  | quit
  | mousebuttonup
  | mousebuttondown
  | other (code : Nat)
deriving DecidableEq, Repr

/-- Observable calls made by the logic loop, in order. -/
inductive LoopAction where
  | setStopped
  | joinRenderThread
  | sysExit
  | processMouseEvent (down : Bool)
  | executeGame
  | initGuiCall
  | buildGameObjectsCall
  | startRenderThreadCall
deriving DecidableEq, Repr

/-- The fields of a constructed `GameApp` that the loops read or write.
`game_controller` is the subclass-owned controller object (a bare identity
here); `gui_interface` is built by `init_gui`. -/
structure AppState where
  stopped : Bool
  settings_json : JValue
  game_controller : Option Nat
  gui_interface : Option GuiInterfaceState

/-- Result of one call to `GameApp.process_events`: the state after the call,
the trace of calls it made, and whether it left via `sys.exit()` (in which
case the remaining events of the batch were never looked at). -/
structure PEResult where
  state : AppState
  trace : List LoopAction
  exited : Bool

/-- `GameApp.process_events`: walks the pending event batch in order.  A
`QUIT` event sets `self.stopped`, joins the render thread, and raises
`SystemExit` — abandoning the rest of the batch; `MOUSEBUTTONUP` /
`MOUSEBUTTONDOWN` call the abstract hook `process_mouse_event` with `False` /
`True`; anything else matches no branch of the `if`/`elif` chain. -/
def processEvents (s : AppState) : List EventType → PEResult
  | [] => ⟨s, [], false⟩
  | e :: rest =>
    match e with
    | .quit =>
      ⟨{ s with stopped := true }, [.setStopped, .joinRenderThread, .sysExit], true⟩
    | .mousebuttonup =>
      let r := processEvents s rest
      ⟨r.state, .processMouseEvent false :: r.trace, r.exited⟩
    | .mousebuttondown =>
      let r := processEvents s rest
      ⟨r.state, .processMouseEvent true :: r.trace, r.exited⟩
    | .other _ => processEvents s rest

/-- `RenderThread.run`, timed in render-loop iterations: `stoppedAt k` is the
value of the shared `self.app.stopped` flag that iteration `k`'s
`while not self.app.stopped` test reads.  The returned list holds the indices
of the iterations that actually tick/render/flip; the loop exits at the first
test that sees the flag set.  `fuel` truncates the potentially endless loop
for observation. -/
def renderRun (stoppedAt : Nat → Bool) : Nat → Nat → List Nat
  | 0, _ => []
  | fuel + 1, k => if stoppedAt k then [] else k :: renderRun stoppedAt fuel (k + 1)

/-- `GameApp.execute_game_logic`: calls `self.game_controller.execute_game()`
only when the controller reference is non-null. -/
def execute_game_logic (s : AppState) : List LoopAction :=
  match s.game_controller with
  | some _ => [.executeGame]
  | none => []

/-- How `GameApp.run_game_loop` ends an observation window: still inside
`while 1` wanting the next tick, or gone through `sys.exit()`.  There is no
constructor for a normal return because the loop body contains none. -/
inductive LoopStatus where
  | stillLooping (s : AppState)
  | exitedViaSysExit (s : AppState)

/-- `GameApp.run_game_loop`: each tick paces the clock at 60 fps, drains the
pending events, and (unless `process_events` raised `SystemExit`) runs the
game logic once.  `ticks` supplies the event batch each iteration sees; when
it is exhausted the loop is still running. -/
def run_game_loop (s : AppState) : List (List EventType) → LoopStatus × List LoopAction
  | [] => (.stillLooping s, [])
  | evs :: rest =>
    let r := processEvents s evs
    if r.exited then
      (.exitedViaSysExit r.state, r.trace)
    else
      let (st, tr) := run_game_loop r.state rest
      (st, r.trace ++ execute_game_logic r.state ++ tr)

/-- `GameApp.init_gui`: builds the inner `GuiInterface` from
`globals.settings_json["gui"]` and an empty element list; a settings document
without a `gui` key makes the subscript fail (`none`). -/
def init_gui (s : AppState) : Option AppState :=
  (s.settings_json.getKey "gui").map fun gj =>
    { s with gui_interface := some ⟨gj, []⟩ }

/-- `GameApp.init_game`: `init_gui` then the abstract hook
`build_game_objects` (a `pass` body in the base class, recorded in the
trace). -/
def init_game (s : AppState) : Option (AppState × List LoopAction) :=
  (init_gui s).map fun s1 => (s1, [.initGuiCall, .buildGameObjectsCall])

/-- `GameApp.execute`, transcribed statement by statement:
`self.init_game()`, `self.start_render_thread()`, `self.run_game_loop()`. -/
def execute (s : AppState) (ticks : List (List EventType)) :
    Option (LoopStatus × List LoopAction) :=
  (init_game s).map fun (s1, tr1) =>
    let tr2 := [LoopAction.startRenderThreadCall]
    let (st, tr3) := run_game_loop s1 ticks
    (st, tr1 ++ tr2 ++ tr3)

/-- Observable drawing calls of one render-thread iteration. -/
inductive RAction where
  | drawBackgroundRect (color : JValue) (x y : Int) (size : JValue)
  | renderObjects
  | renderGuiElems (drawn : List GuiElem)
  | displayFlip

/-- The window fields `GameApp.render` reads, at json level exactly as the
constructor stored them, plus the two nullable references. -/
structure RenderView where
  background_color : JValue
  size : JValue
  game_controller : Option Nat
  gui_interface : Option GuiInterfaceState

/-- `GameApp.render`: paints the background rectangle
`(0, 0, self.size[0], self.size[1])` with `self.background_color`, then lets
the controller draw if non-null, then lets the gui interface draw (the C1
pass, which also prunes its list) if non-null.  The rectangle action records
the `size` value whose components the call spreads. -/
def renderMethod (s : RenderView) : RenderView × List RAction :=
  let a1 := [RAction.drawBackgroundRect s.background_color 0 0 s.size]
  let a2 := match s.game_controller with
    | some _ => [RAction.renderObjects]
    | none => []
  match s.gui_interface with
  | some g =>
    let (g1, drawn) := g.render
    ({ s with gui_interface := some g1 }, a1 ++ a2 ++ [RAction.renderGuiElems drawn])
  | none => (s, a1 ++ a2)

/-- The body of one `RenderThread.run` iteration once the `stopped` test has
passed: `self.app.clock.tick(300)` (pure pacing, no drawing), then
`self.app.render()`, then `pygame.display.flip()`. -/
def renderThreadIteration (s : RenderView) : RenderView × List RAction :=
  let (s1, tr) := renderMethod s
  (s1, tr ++ [RAction.displayFlip])

/-- Whether an observation window of `run_game_loop` ended with the loop
still going (as opposed to gone through `sys.exit()`). -/
def LoopStatus.isStillLooping : LoopStatus → Bool
  | .stillLooping _ => true
  | .exitedViaSysExit _ => false

/-- `hide_button` seen from the application: the call reaches the inner
interface (when one exists) and does nothing there either. -/
def app_hide_button (s : AppState) : AppState :=
  { s with gui_interface := s.gui_interface.map hide_button }

/-! Theorems.  Each claim of the specification gets one theorem below;
helper lemmas carry shared inductive arguments. -/

lemma getKey_some_is_obj {doc v : JValue} {k : String}
    (h : doc.getKey k = some v) : ∃ entries, doc = .obj entries := by
  cases doc <;> simp [JValue.getKey] at h
  exact ⟨_, rfl⟩

lemma load_settings_eq {doc w title color size : JValue}
    (hw : doc.getKey "window" = some w)
    (ht : w.getKey "title" = some title)
    (hc : w.getKey "background_color" = some color)
    (hs : w.getKey "size" = some size) :
    load_settings_from_json doc = some ⟨title, color, size⟩ := by
  simp [load_settings_from_json, hw, ht, hc, hs, Option.bind]

/-- C3: a well-formed settings document whose `window` block binds `title` to
the string `T`, `background_color` to `C` and `size` to the two-element array
`[W, H]` takes construction through to success, and the application's
`title`, `background_color` and `size` fields hold exactly those values. -/
theorem window_fields_exact (doc w C W H : JValue) (T : String)
    (hw : doc.getKey "window" = some w)
    (ht : w.getKey "title" = some (.str T))
    (hc : w.getKey "background_color" = some C)
    (hs : w.getKey "size" = some (.arr [W, H])) :
    ∃ tr ws, gameAppInit doc = (tr, .ok ws) ∧
      ws.title = .str T ∧ ws.background_color = C ∧ ws.size = .arr [W, H] := by
  obtain ⟨entries, rfl⟩ := getKey_some_is_obj hw
  refine ⟨[.pygameInit, .fontInit, .setCaption (.str T), .setMode (.arr [W, H]),
           .fillBackground C], ⟨.str T, C, .arr [W, H]⟩, ?_, rfl, rfl, rfl⟩
  simp [gameAppInit, load_settings_eq hw ht hc hs]

/-- Witness for C3 at a concrete settings document. -/
theorem window_fields_exact_witness :
    ∃ tr ws,
      gameAppInit (.obj [("window", .obj
        [("title", .str "Solitaire"),
         ("background_color", .arr [.num 0, .num 100, .num 0]),
         ("size", .arr [.num 800, .num 600])])]) = (tr, .ok ws) ∧
      ws.title = .str "Solitaire" ∧
      ws.background_color = .arr [.num 0, .num 100, .num 0] ∧
      ws.size = .arr [.num 800, .num 600] :=
  window_fields_exact _ _ _ _ _ _ rfl rfl rfl rfl

/-- C4 counterexample: the settings document `null` has no top-level `window`
key, yet construction fails through the constructor's explicit `ValueError`,
not through a key-lookup failure of the settings-loading step. -/
theorem null_doc_value_error_not_key_error :
    JValue.getKey .null "window" = none ∧
    gameAppInit .null =
      ([], .error (.valueError "settings json file is not loaded" "GameApp.__init__")) ∧
    InitError.valueError "settings json file is not loaded" "GameApp.__init__" ≠
      InitError.keyLookupError :=
  ⟨rfl, rfl, by decide⟩

/-- C4 (amended): for every settings document other than `null` that lacks
the top-level `window` key, construction fails with the uncaught key-lookup
error raised by the settings-loading step, and the pygame action trace is
empty — in particular no window is created. -/
theorem missing_window_key_fails_before_window (doc : JValue)
    (hnn : doc ≠ .null) (hw : doc.getKey "window" = none) :
    gameAppInit doc = ([], .error .keyLookupError) := by
  have hload : load_settings_from_json doc = none := by
    simp [load_settings_from_json, hw, Option.bind]
  cases doc <;> simp [gameAppInit, hload] at hnn ⊢

/-- Witness for C4's amended statement at a concrete keyless document. -/
theorem missing_window_key_fails_before_window_witness :
    gameAppInit (.obj [("gui", .null)]) = ([], .error .keyLookupError) :=
  missing_window_key_fails_before_window (.obj [("gui", .null)])
    (by intro h; cases h) rfl

/-- C5: a settings file parsing to `null` makes the constructor raise its
explicit `ValueError`; an absent file and malformed JSON instead escape
`load_json` uncaught, as the loader's own errors. -/
theorem construction_error_paths :
    gameAppConstruct (.valid .null) =
      .error (.inr (.valueError "settings json file is not loaded" "GameApp.__init__")) ∧
    gameAppConstruct .absent = .error (.inl .ioError) ∧
    ∀ raw, gameAppConstruct (.invalid raw) = .error (.inl .jsonParseError) :=
  ⟨rfl, rfl, fun _ => rfl⟩

lemma renderPassAux_fst_sublist (fuel : Nat) :
    ∀ (l : List GuiElem) (i : Nat) (drawn : List GuiElem),
      List.Sublist (renderPassAux fuel l i drawn).1 l := by
  induction fuel with
  | zero => intro l i drawn; exact List.Sublist.refl l
  | succ fuel ih =>
    intro l i drawn
    cases h : l[i]? with
    | none => simp [renderPassAux, h]
    | some g =>
      cases hexp : g.isExpired with
      | true =>
        simp only [renderPassAux, h, hexp, if_true]
        exact (ih (l.erase g) (i + 1) drawn).trans (List.erase_sublist g l)
      | false =>
        simp only [renderPassAux, h, hexp, if_false]
        exact ih l (i + 1) (drawn ++ [g])

lemma renderPassAux_drawn_not_expired (fuel : Nat) :
    ∀ (l : List GuiElem) (i : Nat) (drawn : List GuiElem),
      (∀ g ∈ drawn, g.isExpired = false) →
      ∀ g ∈ (renderPassAux fuel l i drawn).2, g.isExpired = false := by
  induction fuel with
  | zero => intro l i drawn hdrawn; exact hdrawn
  | succ fuel ih =>
    intro l i drawn hdrawn
    cases h : l[i]? with
    | none => simpa [renderPassAux, h] using hdrawn
    | some g =>
      cases hexp : g.isExpired with
      | true =>
        simp only [renderPassAux, h, hexp, if_true]
        exact ih (l.erase g) (i + 1) drawn hdrawn
      | false =>
        simp only [renderPassAux, h, hexp, if_false]
        refine ih l (i + 1) (drawn ++ [g]) ?_
        intro x hx
        rcases List.mem_append.mp hx with hx | hx
        · exact hdrawn x hx
        · rcases List.mem_singleton.mp hx with rfl
          exact hexp

lemma renderPassAux_all_live (fuel : Nat) :
    ∀ (l : List GuiElem) (i : Nat) (drawn : List GuiElem),
      l.length - i ≤ fuel → (∀ g ∈ l, g.isExpired = false) →
      renderPassAux fuel l i drawn = (l, drawn ++ l.drop i) := by
  induction fuel with
  | zero =>
    intro l i drawn hfuel _
    have : l.drop i = [] := List.drop_eq_nil_of_le (by omega)
    simp [renderPassAux, this]
  | succ fuel ih =>
    intro l i drawn hfuel hlive
    cases h : l[i]? with
    | none =>
      have hlen : l.length ≤ i := by
        rcases Nat.lt_or_ge i l.length with hlt | hge
        · rw [List.getElem?_eq_getElem hlt] at h
          cases h
        · exact hge
      have : l.drop i = [] := List.drop_eq_nil_of_le hlen
      simp [renderPassAux, h, this]
    | some g =>
      have hi : i < l.length := (List.getElem?_eq_some_iff.mp h).1
      have hg : g ∈ l := List.getElem?_mem h
      have hexp : g.isExpired = false := hlive g hg
      simp only [renderPassAux, h, hexp, if_false]
      rw [ih l (i + 1) (drawn ++ [g]) (by omega) hlive]
      have hdrop : l.drop i = l[i] :: l.drop (i + 1) := List.drop_eq_getElem_cons hi
      have hgi : l[i] = g := (List.getElem?_eq_some_iff.mp h).2
      rw [hdrop, hgi]
      simp

/-- C1 counterexample: for the element list `[e0, e1]` where `e0` carries
`expired = True` and `e1` has no `expired` attribute, the render pass draws
nothing at all — in particular the non-expired element `e1`, still in the
list, is not drawn by that pass, because removing `e0` shifted the iteration
index past `e1`. -/
theorem renderPass_skips_live_successor :
    GuiElem.mk 1 none ∈ [GuiElem.mk 0 (some true), GuiElem.mk 1 none] ∧
    (GuiElem.mk 1 none).isExpired = false ∧
    (renderPass [GuiElem.mk 0 (some true), GuiElem.mk 1 none]).2 = [] ∧
    (renderPass [GuiElem.mk 0 (some true), GuiElem.mk 1 none]).1 =
      [GuiElem.mk 1 none] := by
  decide

/-- C1 (amended): a render pass never draws an element that is expired when
the pass runs, and it never adds elements — the surviving list is a sublist
of the old one, so a removed element is never re-added; when no element of
the list is expired, the pass draws every element in order and leaves the
list unchanged.  However (see the counterexample), removing an expired
element shifts the iteration so the element directly after it is skipped for
that pass: a non-expired successor is drawn only from the next pass on, and
an expired successor can survive in the list into the next pass. -/
theorem renderPass_behaviour (l : List GuiElem) :
    List.Sublist (renderPass l).1 l ∧
    (∀ g ∈ (renderPass l).2, g.isExpired = false) ∧
    ((∀ g ∈ l, g.isExpired = false) → renderPass l = (l, l)) := by
  refine ⟨renderPassAux_fst_sublist l.length l 0 [], ?_, ?_⟩
  · exact renderPassAux_drawn_not_expired l.length l 0 [] (by simp)
  · intro hlive
    have := renderPassAux_all_live l.length l 0 [] (by omega) hlive
    simpa using this

/-- Witness for C1's amended statement: a pass over two live elements draws
both, in order, and leaves the list as it was. -/
theorem renderPass_behaviour_witness :
    renderPass [GuiElem.mk 7 none, GuiElem.mk 8 (some false)] =
      ([GuiElem.mk 7 none, GuiElem.mk 8 (some false)],
       [GuiElem.mk 7 none, GuiElem.mk 8 (some false)]) :=
  (renderPass_behaviour [GuiElem.mk 7 none, GuiElem.mk 8 (some false)]).2.2 (by decide)

lemma processEvents_exited_suffix (s : AppState) (evs : List EventType)
    (hex : (processEvents s evs).exited = true) :
    ∃ pre, (processEvents s evs).trace =
        pre ++ [.setStopped, .joinRenderThread, .sysExit] ∧
      (processEvents s evs).state.stopped = true := by
  induction evs generalizing s with
  | nil => simp [processEvents] at hex
  | cons e rest ih =>
    cases e with
    | quit => exact ⟨[], rfl, rfl⟩
    | mousebuttonup =>
      obtain ⟨pre, htr, hst⟩ := ih s hex
      exact ⟨.processMouseEvent false :: pre, by simp [processEvents, htr], hst⟩
    | mousebuttondown =>
      obtain ⟨pre, htr, hst⟩ := ih s hex
      exact ⟨.processMouseEvent true :: pre, by simp [processEvents, htr], hst⟩
    | other c => exact ih s hex

lemma renderRun_stops (stoppedAt : Nat → Bool) (fuel : Nat) :
    ∀ k, (∀ j ∈ renderRun stoppedAt fuel k, stoppedAt j = false) ∧
      (stoppedAt k = true → renderRun stoppedAt fuel k = []) := by
  induction fuel with
  | zero => intro k; exact ⟨by simp [renderRun], fun _ => rfl⟩
  | succ fuel ih =>
    intro k
    cases hk : stoppedAt k with
    | true => exact ⟨by simp [renderRun, hk], fun _ => by simp [renderRun, hk]⟩
    | false =>
      constructor
      · intro j hj
        rw [renderRun, if_neg (by simp [hk])] at hj
        rcases List.mem_cons.mp hj with rfl | hj
        · exact hk
        · exact (ih (k + 1)).1 j hj
      · intro hc
        simp [hk] at hc

/-- C2: a quit event at the head of the pending batch makes
`process_events` perform, in this order, exactly: set the stop flag, join the
render thread, raise `SystemExit` — leaving the flag set and never returning
normally to the rest of the batch (any exited run ends in that same
three-call suffix); and the render loop, which re-reads the flag at the top
of every iteration, renders only at instants where the flag is still clear,
so it performs no further iteration once the flag it reads is set. -/
theorem quit_event_stops_joins_exits (s : AppState) (rest evs : List EventType)
    (stoppedAt : Nat → Bool) (fuel k : Nat) :
    processEvents s (.quit :: rest) =
      ⟨{ s with stopped := true }, [.setStopped, .joinRenderThread, .sysExit], true⟩ ∧
    ((processEvents s evs).exited = true →
      ∃ pre, (processEvents s evs).trace =
          pre ++ [.setStopped, .joinRenderThread, .sysExit] ∧
        (processEvents s evs).state.stopped = true) ∧
    (∀ j ∈ renderRun stoppedAt fuel k, stoppedAt j = false) ∧
    (stoppedAt k = true → renderRun stoppedAt fuel k = []) := by
  refine ⟨rfl, processEvents_exited_suffix s evs, ?_, ?_⟩
  · exact (renderRun_stops stoppedAt fuel k).1
  · exact (renderRun_stops stoppedAt fuel k).2

/-- Witness for C2 at a concrete state, a one-event batch, and a flag that is
set from iteration 0 on. -/
theorem quit_event_stops_joins_exits_witness :
    processEvents ⟨false, .null, none, none⟩ [.quit] =
      ⟨⟨true, .null, none, none⟩, [.setStopped, .joinRenderThread, .sysExit], true⟩ ∧
    renderRun (fun _ => true) 5 0 = [] := by
  have h := quit_event_stops_joins_exits ⟨false, .null, none, none⟩ [] [.quit]
    (fun _ => true) 5 0
  exact ⟨h.1, h.2.2.2 rfl⟩

/-- C6: within one `process_events` batch, a `MOUSEBUTTONDOWN` event calls
the abstract hook `process_mouse_event` with `True` and a `MOUSEBUTTONUP`
event calls it with `False`, both then continuing with the rest of the
batch; the two flag values are distinct. -/
theorem mouse_event_flag_dispatch (s : AppState) (rest : List EventType) :
    (processEvents s (.mousebuttondown :: rest)).trace =
      .processMouseEvent true :: (processEvents s rest).trace ∧
    (processEvents s (.mousebuttonup :: rest)).trace =
      .processMouseEvent false :: (processEvents s rest).trace ∧
    LoopAction.processMouseEvent true ≠ LoopAction.processMouseEvent false :=
  ⟨rfl, rfl, by decide⟩

/-- C10: an event that is neither quit nor a mouse button event matches no
branch of the `if`/`elif` chain: processing it is the same as processing the
rest of the batch, and on its own it calls no hook, changes no field, and
does not exit. -/
theorem other_events_discarded (s : AppState) (c : Nat) (rest : List EventType) :
    processEvents s (.other c :: rest) = processEvents s rest ∧
    (processEvents s [.other c]).state = s ∧
    (processEvents s [.other c]).trace = [] ∧
    (processEvents s [.other c]).exited = false :=
  ⟨rfl, rfl, rfl, rfl⟩

/-- C7: one render-thread iteration is exactly: paint the background
rectangle `(0, 0, size[0], size[1])` in the configured color, draw the game
controller's objects only when that reference is non-null, draw the gui
interface's elements only when that reference is non-null, then flip the
display — a null reference just skips its draw call, nothing fails. -/
theorem render_iteration_order (s : RenderView) :
    (renderThreadIteration s).2 =
      [RAction.drawBackgroundRect s.background_color 0 0 s.size] ++
      (match s.game_controller with
       | some _ => [RAction.renderObjects]
       | none => []) ++
      (match s.gui_interface with
       | some g => [RAction.renderGuiElems (renderPass g.gui_list).2]
       | none => []) ++
      [RAction.displayFlip] ∧
    (s.game_controller = none →
      RAction.renderObjects ∉ (renderThreadIteration s).2) ∧
    (s.gui_interface = none →
      ∀ dr, RAction.renderGuiElems dr ∉ (renderThreadIteration s).2) := by
  rcases s with ⟨bg, sz, gc, gi⟩
  cases gc <;> cases gi <;>
    simp [renderThreadIteration, renderMethod, GuiInterfaceState.render, renderPass]

/-- Witness for C7 at a concrete view with both references null: the
controller draw is skipped. -/
theorem render_iteration_order_witness :
    RAction.renderObjects ∉ (renderThreadIteration ⟨.null, .null, none, none⟩).2 :=
  (render_iteration_order ⟨.null, .null, none, none⟩).2.1 rfl

/-- C8: `hide_button` is a no-op — it returns the gui interface (element
list and settings block included) exactly as it was, and through
`app_hide_button` the rest of the application state is untouched too. -/
theorem hide_button_noop (g : GuiInterfaceState) (s : AppState) :
    hide_button g = g ∧
    (hide_button g).gui_list = g.gui_list ∧
    (hide_button g).gui_json = g.gui_json ∧
    app_hide_button s = s := by
  refine ⟨rfl, rfl, rfl, ?_⟩
  have hmap : s.gui_interface.map hide_button = s.gui_interface := by
    cases s.gui_interface <;> rfl
  simp [app_hide_button, hmap]

lemma processEvents_no_quit_no_exited (s : AppState) (evs : List EventType)
    (h : EventType.quit ∉ evs) : (processEvents s evs).exited = false := by
  induction evs generalizing s with
  | nil => rfl
  | cons e rest ih =>
    have hrest : EventType.quit ∉ rest := fun hc => h (List.mem_cons_of_mem e hc)
    cases e with
    | quit => exact absurd (List.mem_cons_self _ _) h
    | mousebuttonup => exact ih s hrest
    | mousebuttondown => exact ih s hrest
    | other c => exact ih s hrest

lemma run_game_loop_no_quit_still_looping (ticks : List (List EventType)) :
    ∀ s : AppState, (∀ evs ∈ ticks, EventType.quit ∉ evs) →
      (run_game_loop s ticks).1.isStillLooping = true := by
  induction ticks with
  | nil => intro s _; rfl
  | cons evs rest ih =>
    intro s h
    have hexit : (processEvents s evs).exited = false :=
      processEvents_no_quit_no_exited s evs (h evs (List.mem_cons_self _ _))
    have hrest : ∀ e ∈ rest, EventType.quit ∉ e :=
      fun e he => h e (List.mem_cons_of_mem evs he)
    have := ih (processEvents s evs).state hrest
    rcases hr : run_game_loop (processEvents s evs).state rest with ⟨st, tr⟩
    rw [hr] at this
    simp [run_game_loop, hexit, hr]
    exact this

/-- C9: `execute` is exactly `init_game` (which is `init_gui` followed by the
subclass's `build_game_objects` hook), then `start_render_thread`, then
`run_game_loop`, with their traces in that order; and `run_game_loop` never
finishes normally — over any observation window in which no quit event
arrives, it is still looping. -/
theorem execute_composes_and_blocks (s : AppState) (ticks : List (List EventType)) :
    execute s ticks =
      (match init_game s with
       | none => none
       | some (s1, tr1) =>
         some ((run_game_loop s1 ticks).1,
           tr1 ++ [.startRenderThreadCall] ++ (run_game_loop s1 ticks).2)) ∧
    init_game s =
      (init_gui s).map (fun s1 => (s1, [.initGuiCall, .buildGameObjectsCall])) ∧
    ((∀ evs ∈ ticks, EventType.quit ∉ evs) →
      (run_game_loop s ticks).1.isStillLooping = true) := by
  refine ⟨?_, rfl, run_game_loop_no_quit_still_looping ticks s⟩
  cases h : init_game s with
  | none => simp [execute, h]
  | some p =>
    rcases p with ⟨s1, tr1⟩
    rcases hr : run_game_loop s1 ticks with ⟨st, tr3⟩
    simp [execute, h, hr]

/-- Witness for C9: a window of two quit-free ticks leaves the loop still
running. -/
theorem execute_composes_and_blocks_witness :
    (run_game_loop ⟨false, .null, none, none⟩
        [[.other 2], [.mousebuttondown, .mousebuttonup]]).1.isStillLooping = true :=
  (execute_composes_and_blocks ⟨false, .null, none, none⟩
      [[.other 2], [.mousebuttondown, .mousebuttonup]]).2.2 (by decide)
